import Mathlib

/-!
Verification development for the Bank ABC voice-agent backend.

The definitions below are a shallow embedding of the Python sources:
  - `backend/app/tools.py`   (tool gateway, verification engine, mock data store)
  - `backend/main.py`        (output guardrail, turn orchestration, session lifecycle)
  - `backend/app/agent.py`   (intent router, LLM invocation)

Conventions:
  - Python `dict` instances keyed by strings are modeled as association lists
    (`List (String × α)`), with `lookup` mirroring `dict.get`.
  - Python `frozenset[str]` (the verified-customer set) is modeled as a
    duplicate-free `List String` with set-style insert/remove helpers.
  - Monetary floats in the mock database carry exact cent values (e.g.
    `5000.00` dollars is stored as `500000` cents); the code never computes
    with them, it only stores and returns them.
  - `time.time()` / `time.strftime(...)` values are passed in as parameters.
-/

/-! ### Python string primitives used by the sources -/

/-- Remove leading and trailing whitespace characters, as Python `str.strip()`. -/
def stripChars (l : List Char) : List Char :=
  ((l.dropWhile Char.isWhitespace).reverse.dropWhile Char.isWhitespace).reverse

/-- Python `s.strip()`. -/
def pyStrip (s : String) : String :=
  String.mk (stripChars s.data)

/-- Python `s.lower()` (ASCII case folding suffices for the strings involved). -/
def pyLower (s : String) : String :=
  String.mk (s.data.map Char.toLower)

/-- Substring occurrence test on character lists. -/
def containsSubList (needle : List Char) : List Char → Bool
  | [] => needle.isEmpty
  | c :: rest => needle.isPrefixOf (c :: rest) || containsSubList needle rest

/-- Python `needle in hay` for strings. -/
def containsSubstr (hay needle : String) : Bool :=
  containsSubList needle.data hay.data

/-- Python `s.startswith(pre)`. -/
def pyStartsWith (s pre : String) : Bool :=
  pre.data.isPrefixOf s.data

/-- Python `any(ch.isdigit() for ch in s)`, i.e. `re.search(r"\d", s)`. -/
def containsDigit (s : String) : Bool :=
  s.data.any Char.isDigit

/-! ### Association lists standing for Python dicts -/

/-- Python `d.get(k)` on a string-keyed dict. -/
def lookup {α : Type} : List (String × α) → String → Option α
  | [], _ => none
  | (k, v) :: rest, key => if k = key then some v else lookup rest key

/-- In-place mutation of the entry at a key (`d[k].field = ...` in Python). -/
def updateAssoc {α : Type} : List (String × α) → String → (α → α) → List (String × α)
  | [], _, _ => []
  | (k1, v) :: rest, key, f =>
    if k1 = key then (k1, f v) :: updateAssoc rest key f
    else (k1, v) :: updateAssoc rest key f

/-! ### Verified-customer set (`_VERIFIED_CUSTOMERS_CTX` in `tools.py`) -/

/-- Set-style insert: `current | \x7bcustomer_id\x7d` on a `frozenset`. -/
def setInsert (l : List String) (a : String) : List String :=
  if l.contains a then l else a :: l

/-- Set-style removal: `current - \x7bcustomer_id\x7d` on a `frozenset`. -/
def setRemove (l : List String) (a : String) : List String :=
  l.filter (fun x => x != a)

/-- `tools.reset_verification`: drop the customer from the verified set. -/
def reset_verification (verified : List String) (customer_id : String) : List String :=
  if verified.contains customer_id then setRemove verified customer_id else verified

/-- `tools.set_verification_state`: hydrate the verified set from persisted truth. -/
def set_verification_state (verified : List String) (customer_id : String)
    (is_ver : Bool) : List String :=
  if is_ver then setInsert verified customer_id
  else if verified.contains customer_id then setRemove verified customer_id
  else verified

/-! ### Tool flags (`_TOOL_FLAGS` / `_is_tool_enabled` in `tools.py`) -/

/-- Runtime tool flags: each entry is a dict that may or may not carry an
`enabled` boolean (`none` models an entry dict without the key). -/
def ToolFlags : Type := List (String × Option Bool)

/-- `tools._is_tool_enabled`: missing entry or missing `enabled` key defaults
to enabled. -/
def is_tool_enabled (flags : ToolFlags) (name : String) : Bool :=
  match lookup flags name with
  | none => true
  | some none => true
  | some (some b) => b

/-! ### The mock data store (`MOCK_DB` in `tools.py`) -/

structure Profile where
  address : String
  phone : String
  email : String
deriving DecidableEq, Repr

structure Account where
  account_id : String
  /-- the `type` key of the account dict -/
  acctType : String
  currency : String
  /-- the `available` amount, in cents -/
  availableCents : Int
deriving DecidableEq, Repr

structure CustCard where
  card_id : String
  status : String
  last4 : String
  network : String
deriving DecidableEq, Repr

structure Transaction where
  id : String
  /-- the `amount` value, in cents -/
  amountCents : Int
  merchant : String
  status : String
  ts : String
deriving DecidableEq, Repr

structure Statement where
  period : String
  statement_id : String
  format : String
deriving DecidableEq, Repr

structure Customer where
  pin : String
  name : String
  profile : Profile
  accounts : List Account
  cards : List CustCard
  transactions : List Transaction
  statements : List Statement
deriving DecidableEq, Repr

/-- An entry of the top-level `MOCK_DB["cards"]` table. -/
structure CardRow where
  customer_id : String
  status : String
deriving DecidableEq, Repr

structure Dispute where
  customer_id : String
  dtype : String
  atm_id : String
  /-- disputed amount, in cents -/
  amountCents : Int
  date : String
  status : String
deriving DecidableEq, Repr

structure MockDB where
  customers : List (String × Customer)
  cards : List (String × CardRow)
  disputes : List (String × Dispute)
deriving DecidableEq, Repr

/-- Whole mutable state the tool gateway touches: the mock data store plus the
context-scoped verified-customer set. -/
structure GatewayState where
  db : MockDB
  verified : List String
deriving DecidableEq, Repr

/-- The literal `MOCK_DB` constant of `tools.py`. -/
def MOCK_DB : MockDB :=
  { customers :=
      [("user123",
        { pin := "1234"
          name := "John Doe"
          profile :=
            { address := "12 Main St, Springfield, IL 62701"
              phone := "+1-202-555-0100"
              email := "john.doe@example.com" }
          accounts :=
            [{ account_id := "acc_123", acctType := "checking",
               currency := "USD", availableCents := 500000 }]
          cards :=
            [{ card_id := "card_123", status := "active",
               last4 := "4242", network := "VISA" }]
          transactions :=
            [{ id := "tx_1", amountCents := -5000, merchant := "Walmart",
               status := "completed", ts := "2026-01-20T12:01:00Z" },
             { id := "tx_2", amountCents := -1200, merchant := "Netflix",
               status := "completed", ts := "2026-01-19T08:30:00Z" },
             { id := "tx_3", amountCents := -10000, merchant := "Unknown",
               status := "declined", ts := "2026-01-18T15:12:00Z" }]
          statements :=
            [{ period := "2025-12", statement_id := "st_202512", format := "pdf" },
             { period := "2025-11", statement_id := "st_202511", format := "pdf" }] })]
    cards := [("card_123", { customer_id := "user123", status := "active" })]
    disputes := [] }

/-- Initial gateway state: the mock store plus the empty verified set
(the `ContextVar` default is `frozenset()`). -/
def MOCK_STATE : GatewayState :=
  { db := MOCK_DB, verified := [] }

/-! ### Tool gateway operations (`tools.py`)

Each Python tool returns a JSON-like payload.  Every distinct payload shape a
tool can produce is one constructor of that tool's result type; success
constructors carry exactly the fields of the returned dict.  Operations that
mutate state also return the updated `GatewayState`; read-only operations
contain no store writes in the source, so they return only their payload. -/

/-- `tools.verify_identity_raw`: exact-key customer lookup, whitespace-only PIN
stripping, 4..6 length window, exact PIN match; on success the customer is
added to the verified set. -/
def verify_identity_raw (st : GatewayState) (customer_id pin : String) :
    Bool × GatewayState :=
  match lookup st.db.customers customer_id with
  | none => (false, st)
  | some customer =>
    let normalized := pyStrip pin
    if normalized.length < 4 || normalized.length > 6 then (false, st)
    else if customer.pin ≠ normalized then (false, st)
    else (true, { st with verified := setInsert st.verified customer_id })

/-- `tools.verify_identity` (the `@tool` wrapper): returns plain `False` when
the flag is disabled, otherwise defers to `verify_identity_raw`. -/
def verify_identity (flags : ToolFlags) (st : GatewayState)
    (customer_id pin : String) : Bool × GatewayState :=
  if ! is_tool_enabled flags "verify_identity" then (false, st)
  else verify_identity_raw st customer_id pin

/-- Result of `tools.get_verification_status`. -/
inductive VerificationStatusResult where
  /-- the dict `\x7b"verified": False, "error": "tool_disabled"\x7d` -/
  | disabled
  /-- the dict `\x7b"verified": is_ver\x7d` -/
  | ok (verified : Bool)
deriving DecidableEq, Repr

/-- `tools.get_verification_status`. -/
def get_verification_status (flags : ToolFlags) (st : GatewayState)
    (customer_id : String) : VerificationStatusResult :=
  if ! is_tool_enabled flags "get_verification_status" then .disabled
  else .ok (st.verified.contains customer_id)

/-- Result of `tools.get_account_balance`; the error constructors model the
`\x7b"error": ...\x7d` dicts of the source. -/
inductive BalanceResult where
  | tool_disabled
  | identity_not_verified
  | customer_not_found
  | ok (customer_id account_id acctType : String) (availableCents : Int)
       (currency as_of : String)
deriving DecidableEq, Repr

/-- `tools.get_account_balance`; `as_of` is the strftime timestamp passed in.
`none` models the uncaught `IndexError` on `customer["accounts"][0]` when the
customer record holds no accounts (never the case in `MOCK_DB`). -/
def get_account_balance (flags : ToolFlags) (st : GatewayState)
    (customer_id as_of : String) : Option BalanceResult :=
  if ! is_tool_enabled flags "get_account_balance" then some .tool_disabled
  else if ! st.verified.contains customer_id then some .identity_not_verified
  else match lookup st.db.customers customer_id with
    | none => some .customer_not_found
    | some customer =>
      (customer.accounts[0]?).map fun acct =>
        .ok customer_id acct.account_id acct.acctType acct.availableCents
          acct.currency as_of

/-- Result of `tools.get_customer_profile`. -/
inductive ProfileResult where
  | tool_disabled
  | identity_not_verified
  | customer_not_found
  | ok (customer_id name address phone email : String)
deriving DecidableEq, Repr

/-- `tools.get_customer_profile`. -/
def get_customer_profile (flags : ToolFlags) (st : GatewayState)
    (customer_id : String) : ProfileResult :=
  if ! is_tool_enabled flags "get_customer_profile" then .tool_disabled
  else if ! st.verified.contains customer_id then .identity_not_verified
  else match lookup st.db.customers customer_id with
    | none => .customer_not_found
    | some customer =>
      .ok customer_id customer.name customer.profile.address
        customer.profile.phone customer.profile.email

/-- Result of `tools.get_recent_transactions`; the error constructors model the
singleton lists `[\x7b"error": ...\x7d]` of the source. -/
inductive TxnsResult where
  | tool_disabled
  | identity_not_verified
  | customer_not_found
  | ok (txns : List Transaction)
deriving DecidableEq, Repr

/-- `tools.get_recent_transactions`: clamps the count into `[1, 20]` and takes
that prefix of the transaction list. -/
def get_recent_transactions (flags : ToolFlags) (st : GatewayState)
    (customer_id : String) (count : Int) : TxnsResult :=
  if ! is_tool_enabled flags "get_recent_transactions" then .tool_disabled
  else if ! st.verified.contains customer_id then .identity_not_verified
  else match lookup st.db.customers customer_id with
    | none => .customer_not_found
    | some customer =>
      let safe_count := (max 1 (min count 20)).toNat
      .ok (customer.transactions.take safe_count)

/-- Update the status of the first card with the given id in a customer's card
list, mirroring the `for c in customer["cards"]: ... break` loop. -/
def blockCustCards : List CustCard → String → List CustCard
  | [], _ => []
  | c :: rest, card_id =>
    if c.card_id = card_id then { c with status := "blocked" } :: rest
    else c :: blockCustCards rest card_id

/-- `tools.block_card`: gate order is flag, then card existence, then identity
of the card's owner; on success sets `blocked` on both the card row and the
first matching entry of the owner's card list.  The result is the literal
string the Python function returns. -/
def block_card (flags : ToolFlags) (st : GatewayState)
    (card_id reason : String) : String × GatewayState :=
  if ! is_tool_enabled flags "block_card" then ("Error: Tool disabled.", st)
  else match lookup st.db.cards card_id with
    | none => ("Error: Card not found.", st)
    | some card =>
      if ! st.verified.contains card.customer_id then
        ("Error: Identity not verified.", st)
      else
        let cards1 := updateAssoc st.db.cards card_id
          (fun c => { c with status := "blocked" })
        let customers1 :=
          match lookup st.db.customers card.customer_id with
          | none => st.db.customers
          | some _ =>
            updateAssoc st.db.customers card.customer_id
              (fun cust => { cust with cards := blockCustCards cust.cards card_id })
        ("Card " ++ card_id ++ " has been blocked. Reason: " ++ reason,
          { st with db := { st.db with cards := cards1, customers := customers1 } })

/-- Result of `tools.get_customer_cards`. -/
inductive CardsResult where
  | tool_disabled
  | identity_not_verified
  | customer_not_found
  | ok (cards : List CustCard)
deriving DecidableEq, Repr

/-- `tools.get_customer_cards`. -/
def get_customer_cards (flags : ToolFlags) (st : GatewayState)
    (customer_id : String) : CardsResult :=
  if ! is_tool_enabled flags "get_customer_cards" then .tool_disabled
  else if ! st.verified.contains customer_id then .identity_not_verified
  else match lookup st.db.customers customer_id with
    | none => .customer_not_found
    | some customer => .ok customer.cards

/-- Result of `tools.request_statement`. -/
inductive StatementResult where
  | tool_disabled
  | identity_not_verified
  | customer_not_found
  /-- the success dict with `"status": "ready"` -/
  | ready (statement_id period format : String)
  /-- the miss dict listing the available periods -/
  | statement_not_found (available_periods : List String)
deriving DecidableEq, Repr

/-- `tools.request_statement`: linear scan of the customer's statement list. -/
def request_statement (flags : ToolFlags) (st : GatewayState)
    (customer_id period : String) : StatementResult :=
  if ! is_tool_enabled flags "request_statement" then .tool_disabled
  else if ! st.verified.contains customer_id then .identity_not_verified
  else match lookup st.db.customers customer_id with
    | none => .customer_not_found
    | some customer =>
      match customer.statements.find? (fun s => s.period = period) with
      | some s => .ready s.statement_id period s.format
      | none => .statement_not_found (customer.statements.map (fun s => s.period))

/-- Result of `tools.update_address`. -/
inductive AddressResult where
  | tool_disabled
  | identity_not_verified
  | customer_not_found
  /-- the dict `\x7b"status": "updated", "address": ...\x7d` -/
  | updated (address : String)
deriving DecidableEq, Repr

/-- `tools.update_address`: writes the stripped new address into the customer's
profile. -/
def update_address (flags : ToolFlags) (st : GatewayState)
    (customer_id new_address : String) : AddressResult × GatewayState :=
  if ! is_tool_enabled flags "update_address" then (.tool_disabled, st)
  else if ! st.verified.contains customer_id then (.identity_not_verified, st)
  else match lookup st.db.customers customer_id with
    | none => (.customer_not_found, st)
    | some _ =>
      let addr := pyStrip new_address
      let customers1 := updateAssoc st.db.customers customer_id
        (fun cust => { cust with profile := { cust.profile with address := addr } })
      (.updated addr, { st with db := { st.db with customers := customers1 } })

/-- Result of `tools.report_cash_not_dispensed`. -/
inductive DisputeResult where
  | tool_disabled
  | identity_not_verified
  | customer_not_found
  /-- the dict `\x7b"dispute_id": ..., "status": "submitted"\x7d` -/
  | submitted (dispute_id : String)
deriving DecidableEq, Repr

/-- `tools.report_cash_not_dispensed`; `nowEpoch` is `int(time.time())`, used
to mint the dispute id. -/
def report_cash_not_dispensed (flags : ToolFlags) (st : GatewayState)
    (customer_id atm_id : String) (amountCents : Int) (date : String)
    (nowEpoch : Nat) : DisputeResult × GatewayState :=
  if ! is_tool_enabled flags "report_cash_not_dispensed" then (.tool_disabled, st)
  else if ! st.verified.contains customer_id then (.identity_not_verified, st)
  else if (lookup st.db.customers customer_id).isNone then (.customer_not_found, st)
  else
    let dispute_id := "disp_" ++ toString nowEpoch
    let dispute : Dispute :=
      { customer_id := customer_id, dtype := "cash_not_dispensed",
        atm_id := atm_id, amountCents := amountCents, date := date,
        status := "submitted" }
    (.submitted dispute_id,
      { st with db := { st.db with disputes := st.db.disputes ++ [(dispute_id, dispute)] } })

/-! ### Output guardrail (`main.py`)

Tool results travel back to the orchestrator as message contents (strings that
`_tool_succeeded` strips and `json.loads`-parses).  The embedding records, for
each tool message, exactly the features that function inspects: whether the
content was `None`, and otherwise whether its stripped text parses as JSON and
which top-level keys a parsed object (or each object element of a parsed
array) carries. -/

/-- Shape of one element of a JSON array, as far as `_tool_succeeded` looks. -/
inductive JsonElem where
  /-- an object element, with its list of keys -/
  | objElem (keys : List String)
  /-- any non-object element -/
  | other
deriving DecidableEq, Repr

/-- Shape of a parsed JSON document, as far as `_tool_succeeded` looks. -/
inductive JsonShape where
  /-- a JSON object, with its list of keys -/
  | obj (keys : List String)
  /-- a JSON array of elements -/
  | arr (elems : List JsonElem)
  /-- a scalar (string/number/bool/null) -/
  | scalar
deriving DecidableEq, Repr

/-- Content of a tool message as classified by `_tool_succeeded`. -/
inductive ToolContent where
  /-- `content is None` -/
  | missing
  /-- a string whose stripped form is nonempty and `json.loads`-parses to the
  given shape -/
  | parsed (shape : JsonShape)
  /-- a string on which `json.loads` raises (also covers the empty string) -/
  | unparsed (s : String)
deriving DecidableEq, Repr

/-- A message in the turn trace: its `type` attribute, tool `name`, and
content. -/
structure Msg where
  mtype : String
  name : String
  content : ToolContent
deriving DecidableEq, Repr

/-- The per-message decision of `main._tool_succeeded` once a tool message with
the queried name has been found: every path inside the loop body returns. -/
def contentSucceeded : ToolContent → Bool
  | .missing => false
  | .parsed shape =>
    match shape with
    | .obj keys => ! keys.contains "error"
    | .arr elems =>
      ! elems.any (fun e =>
        match e with
        | .objElem keys => keys.contains "error"
        | .other => false)
    | .scalar => true
  | .unparsed s =>
    let t := pyStrip s
    if t = "" then false
    else
      let lowered := pyLower t
      if containsSubstr lowered "identity_not_verified"
          || containsSubstr lowered "customer_not_found"
          || containsSubstr lowered "tool_disabled" then false
      else if pyStartsWith lowered "error" then false
      else true

/-- `main._tool_succeeded`: scan the trace for the first tool message carrying
the queried name; it alone decides, later messages are never reached. -/
def tool_succeeded : List Msg → String → Bool
  | [], _ => false
  | m :: rest, tool_name =>
    if m.mtype = "tool" && m.name = tool_name then contentSucceeded m.content
    else tool_succeeded rest tool_name

/-- `main._verification_prompt`: ask for a Customer ID while the session is
anonymous, otherwise for the PIN. -/
def verification_prompt (customer_id : String) : String :=
  let cid := pyLower (pyStrip customer_id)
  if cid = "" || cid = "guest" then
    "I can help with that. What’s your Customer ID?"
  else
    "I can help with that. Please share your 4–6 digit PIN to verify your identity."

/-- Zero or more whitespace characters followed by a digit (`\s*\d` after a
matched `$`). -/
def wsThenDigit : List Char → Bool
  | [] => false
  | c :: rest => c.isDigit || (c.isWhitespace && wsThenDigit rest)

/-- `re.search(r"\$\s*\d", text)`: some `$` is followed, after optional
whitespace, by a digit. -/
def dollarThenDigit : List Char → Bool
  | [] => false
  | c :: rest => (c == '$' && wsThenDigit rest) || dollarThenDigit rest

/-- The `reveals_balance` detector of `main._apply_sensitive_guardrail`
(applied to the stripped answer). -/
def revealsBalance (text : String) : Bool :=
  dollarThenDigit text.data
    || (containsSubstr (pyLower text) "balance" && containsDigit text)

/-- The `reveals_contact` detector of `main._apply_sensitive_guardrail`; note
`re.search(r"\+?\d", text)` succeeds exactly when the text contains a digit,
since the leading `+` is optional. -/
def revealsContact (text : String) : Bool :=
  (containsSubstr (pyLower text) "email" && containsSubstr text "@")
    || (containsSubstr (pyLower text) "phone" && containsDigit text)
    || containsSubstr (pyLower text) "your name is"

/-- `main._apply_sensitive_guardrail`: replace the whole answer with a
verification prompt when a detected disclosure lacks a successful
corroborating tool result in the trace. -/
def apply_sensitive_guardrail (agent_text : String) (messages : List Msg)
    (customer_id : String) : String :=
  let text := pyStrip agent_text
  if text = "" then text
  else if revealsBalance text && ! tool_succeeded messages "get_account_balance" then
    verification_prompt customer_id
  else if revealsContact text && ! tool_succeeded messages "get_customer_profile" then
    verification_prompt customer_id
  else text

/-! ### Intent router (`agent.py`, `router` node)

The router sends the latest user utterance to the classifier LLM and resolves
its reply; the reply text is an input here since the LLM is an external
oracle.  The router node receives the whole agent state (including the
session's current `flow`) but its label-resolution reads only the reply. -/

/-- Agent state fed to the LangGraph nodes (`AgentState` in `agent.py`). -/
structure AgentStateM where
  messages : List Msg
  customer_id : String
  flow : Option String
deriving DecidableEq, Repr

/-- The six valid flow labels (`allowed` in `agent.py`). -/
def ALLOWED_FLOWS : List String :=
  ["card_atm_issues", "account_servicing", "account_opening",
   "digital_app_support", "transfers_and_bill_payments",
   "account_closure_retention"]

/-- The flow returned by the `router` node of `agent.py` given the classifier
reply `resp.content`: strip it, keep it if it is a valid label, otherwise
default to `account_servicing`.  The node never reads `state.flow`. -/
def router_node (state : AgentStateM) (classifier_reply : String) : String :=
  let _ := state
  let label := pyStrip classifier_reply
  if ALLOWED_FLOWS.contains label then label else "account_servicing"

/-! ### LLM invocation for a turn (`agent.py` and `main.call_turn`)

`agent.py` constructs one `ChatGroq` client with the single fixed model
`llama-3.3-70b-versatile`; every completion request of a turn goes to that
model.  `main.call_turn` wraps `agent_app.invoke` in a try/except that maps a
rate-limit-shaped exception to an HTTP 429 answer and re-raises anything
else.  The external completion service is an oracle from model identifier to
outcome. -/

/-- The single model identifier configured in `agent.py`. -/
def LLM_MODEL : String := "llama-3.3-70b-versatile"

/-- Outcome of one completion call against a given model. -/
inductive LLMOutcome where
  | success (content : String)
  | failure (error : String)
deriving DecidableEq, Repr

/-- `main._is_rate_limited_error`: textual rate-limit markers. -/
def is_rate_limited_error (e : String) : Bool :=
  let s := pyLower e
  containsSubstr s "error code: 429" || containsSubstr s "rate_limit_exceeded"
    || containsSubstr s "rate limit reached"

/-- How a turn's LLM interaction ends, as seen by the HTTP caller. -/
inductive TurnLLMResult where
  /-- the reasoning call returned normally -/
  | answer (content : String)
  /-- HTTP 429 `"LLM rate limit reached. Please try again shortly."` -/
  | rate_limited (error : String)
  /-- the exception is re-raised (HTTP 500) -/
  | server_error (error : String)
deriving DecidableEq, Repr

/-- The reasoning invocation of `main.call_turn`: the graph queries the oracle
at the one configured model; a rate-limit-shaped failure becomes the 429
answer, any other failure is re-raised. -/
def invoke_turn_llm (oracle : String → LLMOutcome) : TurnLLMResult :=
  match oracle LLM_MODEL with
  | .success v => .answer v
  | .failure e =>
    if is_rate_limited_error e then .rate_limited e else .server_error e

/-! ### Session lifecycle (DB mode: `main.py` with `session_repo.py`)

Sessions live in the `call_sessions` table and turns in the `call_turns`
table.  `end_call` first flips `ended` on the session and then appends the
closing turn; `call_turn` rejects a missing or ended session before anything
is written.  External inputs of a turn (clock, audio size, transcript, the
reasoning service's outcome and the values extracted from its trace) enter
through a `TurnEnv` record; the guardrail and verification-extraction
pipelines that compute those values are modeled and verified separately
above. -/

/-- A row of the `call_sessions` table. -/
structure SessionRow where
  customer_id : String
  env_key : String
  created_at : Nat
  updated_at : Nat
  ended : Bool
  verified_identity : Bool
  verification_attempts : Nat
deriving DecidableEq, Repr

/-- A row of the `call_turns` table (the redacted `tool_calls` column is not
inspected by any claim and is elided). -/
structure TurnRow where
  session_id : String
  ts : Nat
  user_transcript : Option String
  agent_response : String
deriving DecidableEq, Repr

/-- The persistent store: both tables. -/
structure CallDB where
  sessions : List (String × SessionRow)
  turns : List TurnRow
deriving DecidableEq, Repr

/-- `session_repo.touch_session`: refresh `updated_at` and optionally set
`ended`; an update on an absent row is a no-op. -/
def touch_session (db : CallDB) (session_id : String) (now : Nat)
    (ended : Option Bool) : CallDB :=
  { db with
    sessions := updateAssoc db.sessions session_id
      (fun s => { s with updated_at := now, ended := ended.getD s.ended }) }

/-- `session_repo.append_turn`: insert a turn row, then touch the session. -/
def append_turn (db : CallDB) (session_id : String) (ts : Nat)
    (user_transcript : Option String) (agent_response : String) : CallDB :=
  let db1 := { db with
    turns := db.turns ++ [{ session_id := session_id, ts := ts,
                            user_transcript := user_transcript,
                            agent_response := agent_response }] }
  touch_session db1 session_id ts none

/-- `session_repo.set_verification`. -/
def set_verification_db (db : CallDB) (session_id : String)
    (verified_identity : Bool) (verification_attempts : Nat) (now : Nat) : CallDB :=
  { db with
    sessions := updateAssoc db.sessions session_id
      (fun s => { s with verified_identity := verified_identity,
                         verification_attempts := verification_attempts,
                         updated_at := now }) }

/-- `session_repo.set_customer_id`. -/
def set_customer_id_db (db : CallDB) (session_id customer_id : String)
    (now : Nat) : CallDB :=
  { db with
    sessions := updateAssoc db.sessions session_id
      (fun s => { s with customer_id := customer_id, updated_at := now }) }

/-- The closing message of `main.end_call`. -/
def CLOSING_MESSAGE : String := "Thanks for calling Bank ABC. Goodbye."

/-- `main.end_call` (DB mode): 404 when the session is absent; otherwise set
`ended`, clear the gateway verified set for the session's customer, and then
append the closing turn.  Note the `ended` check is only on existence, so an
already-ended session is processed again. -/
def end_call (db : CallDB) (verified : List String) (session_id : String)
    (now : Nat) : Except String (CallDB × List String × String) :=
  match lookup db.sessions session_id with
  | none => .error "Session not found"
  | some session =>
    let db1 := touch_session db session_id now (some true)
    let verified1 := reset_verification verified session.customer_id
    let db2 := append_turn db1 session_id now none CLOSING_MESSAGE
    .ok (db2, verified1, CLOSING_MESSAGE)

/-- External inputs of one `/call/turn` request.  `transcript = ""` models a
failed transcription; `agent_failure` models an exception raised by
`agent_app.invoke`; `bot_response` is the sanitized, guardrail-filtered final
answer and `attempts_delta` / `verified_now` / `verified_customer_id` are the
outputs of `_extract_verify_success` on the turn's trace (those computations
are modeled separately as `apply_sensitive_guardrail` and friends). -/
structure TurnEnv where
  now : Nat
  audio_len : Nat
  transcript : String
  agent_failure : Option String
  bot_response : String
  attempts_delta : Nat
  verified_now : Bool
  verified_customer_id : Option String
deriving DecidableEq, Repr

/-- `main.call_turn` (DB mode), at the granularity of the persistent store: the
session guard runs before any write; every failure path raises before the
turn is appended.  On success the turn is appended and the verification
fields are conditionally updated exactly as in the source. -/
def call_turn (db : CallDB) (session_id : String) (env : TurnEnv) :
    Except String CallDB :=
  match lookup db.sessions session_id with
  | none => .error "Session not found or ended"
  | some session =>
    if session.ended then .error "Session not found or ended"
    else if env.audio_len < 1024 then
      .error "Audio recording too short. Please speak longer."
    else if env.audio_len > 10485760 then
      .error "Audio file too large (Max 10MB)"
    else if env.transcript = "" then
      .error "Could not transcribe audio. Please speak clearly and ensure the recording is long enough."
    else
      match env.agent_failure with
      | some e =>
        .error (if is_rate_limited_error e then
          "LLM rate limit reached. Please try again shortly." else e)
      | none =>
        let db1 := append_turn db session_id env.now (some env.transcript)
          env.bot_response
        let db2 :=
          if env.attempts_delta ≠ 0 || env.verified_now then
            set_verification_db db1 session_id
              (env.verified_now || session.verified_identity)
              (session.verification_attempts + env.attempts_delta) env.now
          else db1
        let db3 :=
          match env.verified_customer_id with
          | some cid => if env.verified_now then
              set_customer_id_db db2 session_id cid env.now else db2
          | none => db2
        .ok db3

/-! ### Helper lemmas -/

/-- Looking up the mutated key returns the mutated entry. -/
theorem lookup_updateAssoc_self {α : Type} (l : List (String × α)) (k : String)
    (f : α → α) : lookup (updateAssoc l k f) k = (lookup l k).map f := by
  induction l with
  | nil => rfl
  | cons p rest ih =>
    obtain ⟨k1, v⟩ := p
    by_cases h : k1 = k
    · subst h
      simp [updateAssoc, lookup]
    · simp [updateAssoc, lookup, h, ih]

/-- Mutating a key twice with an idempotent mutation equals mutating once. -/
theorem updateAssoc_idem {α : Type} (l : List (String × α)) (k : String)
    (f : α → α) (hf : ∀ a, f (f a) = f a) :
    updateAssoc (updateAssoc l k f) k f = updateAssoc l k f := by
  induction l with
  | nil => rfl
  | cons p rest ih =>
    obtain ⟨k1, v⟩ := p
    by_cases h : k1 = k
    · subst h
      simp [updateAssoc, hf, ih]
    · simp [updateAssoc, h, ih]

/-- Blocking the first matching card twice equals blocking it once. -/
theorem blockCustCards_idem (cs : List CustCard) (card_id : String) :
    blockCustCards (blockCustCards cs card_id) card_id
      = blockCustCards cs card_id := by
  induction cs with
  | nil => rfl
  | cons c rest ih =>
    by_cases h : c.card_id = card_id
    · simp [blockCustCards, h]
    · simp [blockCustCards, h, ih]

/-- Status of the first card with the given id in a customer's card list. -/
def custCardStatus (cards : List CustCard) (card_id : String) : Option String :=
  (cards.find? (fun c => c.card_id == card_id)).map CustCard.status

/-- After `blockCustCards`, the first matching card reads `blocked`. -/
theorem custCardStatus_blockCustCards (cs : List CustCard) (card_id : String)
    (h : (cs.find? (fun c => c.card_id == card_id)).isSome = true) :
    custCardStatus (blockCustCards cs card_id) card_id = some "blocked" := by
  induction cs with
  | nil => simp [List.find?] at h
  | cons c rest ih =>
    by_cases hc : c.card_id = card_id
    · have hp : (fun x : CustCard => x.card_id == card_id)
          { c with status := "blocked" } = true := by simp [hc]
      simp [blockCustCards, hc, custCardStatus, List.find?_cons_of_pos _ hp]
    · have hfc : List.find? (fun x : CustCard => x.card_id == card_id) (c :: rest)
          = List.find? (fun x : CustCard => x.card_id == card_id) rest := by
        simp [List.find?_cons, hc]
      rw [hfc] at h
      have h2 := ih h
      simp only [custCardStatus] at h2 ⊢
      simp only [blockCustCards, if_neg hc]
      have hfc2 : List.find? (fun x : CustCard => x.card_id == card_id)
          (c :: blockCustCards rest card_id)
          = List.find? (fun x : CustCard => x.card_id == card_id)
              (blockCustCards rest card_id) := by
        simp [List.find?_cons, hc]
      rw [hfc2]
      exact h2

/-- Explicit form of a successful `block_card` call. -/
theorem block_card_success (flags : ToolFlags) (st : GatewayState)
    (card_id reason : String) (card : CardRow)
    (hen : is_tool_enabled flags "block_card" = true)
    (hcard : lookup st.db.cards card_id = some card)
    (hver : st.verified.contains card.customer_id = true) :
    block_card flags st card_id reason =
      ("Card " ++ card_id ++ " has been blocked. Reason: " ++ reason,
       { st with db := { st.db with
           cards := updateAssoc st.db.cards card_id
             (fun c => { c with status := "blocked" }),
           customers :=
             match lookup st.db.customers card.customer_id with
             | none => st.db.customers
             | some _ =>
               updateAssoc st.db.customers card.customer_id
                 (fun cust =>
                   { cust with cards := blockCustCards cust.cards card_id }) } }) := by
  have hmem : card.customer_id ∈ st.verified := by simpa using hver
  simp [block_card, hen, hcard, hmem]

/-- A balance disclosure with no successful balance tool result is replaced by
the verification prompt. -/
theorem guardrail_balance_blocked (a : String) (msgs : List Msg) (cid : String)
    (htrim : pyStrip a = a) (hbal : revealsBalance a = true)
    (h : tool_succeeded msgs "get_account_balance" = false) :
    apply_sensitive_guardrail a msgs cid = verification_prompt cid := by
  have hne : ¬ (a = "") := by
    intro h0
    rw [h0] at hbal
    exact absurd hbal (by decide)
  simp [apply_sensitive_guardrail, htrim, hne, hbal, h]

/-- A balance disclosure corroborated by a successful balance tool result (and
tripping no contact detector) passes through unchanged. -/
theorem guardrail_balance_pass (a : String) (msgs : List Msg) (cid : String)
    (htrim : pyStrip a = a) (hbal : revealsBalance a = true)
    (h : tool_succeeded msgs "get_account_balance" = true)
    (hc : revealsContact a = false) :
    apply_sensitive_guardrail a msgs cid = a := by
  have hne : ¬ (a = "") := by
    intro h0
    rw [h0] at hbal
    exact absurd hbal (by decide)
  simp [apply_sensitive_guardrail, htrim, hne, hbal, h, hc]

/-- Messages that are not tool messages of the queried name are skipped by
`tool_succeeded`. -/
theorem tool_succeeded_append_of_none (pre rest : List Msg) (tool_name : String)
    (hpre : ∀ m ∈ pre, ¬ (m.mtype = "tool" ∧ m.name = tool_name)) :
    tool_succeeded (pre ++ rest) tool_name = tool_succeeded rest tool_name := by
  induction pre with
  | nil => rfl
  | cons m ms ih =>
    have hm := hpre m (by simp)
    have hrec := ih (fun x hx => hpre x (by simp [hx]))
    by_cases h1 : m.mtype = "tool"
    · by_cases h2 : m.name = tool_name
      · exact absurd ⟨h1, h2⟩ hm
      · simp [tool_succeeded, h1, h2, hrec]
    · simp [tool_succeeded, h1, hrec]

/-! ### Claim theorems -/

/-- C7: `block_card` is idempotent.  With the card present and its owner
verified, the first call returns the success string and flips the status to
`blocked` in both the card table and the owner's card list; repeating the
call returns the same success string and the very same state, so the second
call has no additional side effect. -/
theorem C7_block_card_idempotent (flags : ToolFlags) (st : GatewayState)
    (card_id reason : String) (card : CardRow) (cust : Customer)
    (hen : is_tool_enabled flags "block_card" = true)
    (hcard : lookup st.db.cards card_id = some card)
    (hver : st.verified.contains card.customer_id = true)
    (hcust : lookup st.db.customers card.customer_id = some cust)
    (hhas : (cust.cards.find? (fun c => c.card_id == card_id)).isSome = true) :
    (block_card flags st card_id reason).1
        = "Card " ++ card_id ++ " has been blocked. Reason: " ++ reason ∧
    block_card flags (block_card flags st card_id reason).2 card_id reason
        = block_card flags st card_id reason ∧
    (lookup (block_card flags st card_id reason).2.db.cards card_id).map
        CardRow.status = some "blocked" ∧
    (lookup (block_card flags st card_id reason).2.db.customers
        card.customer_id).map (fun c => custCardStatus c.cards card_id)
      = some (some "blocked") := by
  have hb1 := block_card_success flags st card_id reason card hen hcard hver
  simp only [hcust] at hb1
  have hcard2 : lookup (updateAssoc st.db.cards card_id
      (fun c => { c with status := "blocked" })) card_id
      = some { card with status := "blocked" } := by
    rw [lookup_updateAssoc_self, hcard]
    rfl
  have hcust2 : lookup (updateAssoc st.db.customers card.customer_id
      (fun c => { c with cards := blockCustCards c.cards card_id }))
      card.customer_id
      = some { cust with cards := blockCustCards cust.cards card_id } := by
    rw [lookup_updateAssoc_self, hcust]
    rfl
  refine ⟨by rw [hb1], ?_, ?_, ?_⟩
  · rw [hb1]
    have hb2 := block_card_success flags
      { st with db := { st.db with
          cards := updateAssoc st.db.cards card_id
            (fun c => { c with status := "blocked" }),
          customers := updateAssoc st.db.customers card.customer_id
            (fun c => { c with cards := blockCustCards c.cards card_id }) } }
      card_id reason { card with status := "blocked" } hen hcard2 hver
    simp only [hcust2] at hb2
    rw [hb2]
    have hcards_idem : updateAssoc (updateAssoc st.db.cards card_id
        (fun c => { c with status := "blocked" })) card_id
        (fun c => { c with status := "blocked" })
        = updateAssoc st.db.cards card_id (fun c => { c with status := "blocked" }) :=
      updateAssoc_idem _ _ _ (fun c => rfl)
    have hcust_idem : updateAssoc (updateAssoc st.db.customers card.customer_id
        (fun c => { c with cards := blockCustCards c.cards card_id }))
        card.customer_id
        (fun c => { c with cards := blockCustCards c.cards card_id })
        = updateAssoc st.db.customers card.customer_id
            (fun c => { c with cards := blockCustCards c.cards card_id }) :=
      updateAssoc_idem _ _ _ (fun c => by simp [blockCustCards_idem])
    rw [hcards_idem, hcust_idem]
  · rw [hb1]
    simp only []
    rw [hcard2]
    rfl
  · rw [hb1]
    simp only []
    rw [hcust2]
    simp [custCardStatus_blockCustCards cust.cards card_id hhas]

/-- C7 witness: blocking `card_123` for the verified owner `user123` in the
mock store succeeds, is idempotent, and leaves the card blocked in both
tables. -/
theorem C7_block_card_idempotent_witness :
    (block_card [] { MOCK_STATE with verified := ["user123"] }
        "card_123" "lost").1
      = "Card " ++ "card_123" ++ " has been blocked. Reason: " ++ "lost" ∧
    block_card []
        (block_card [] { MOCK_STATE with verified := ["user123"] }
          "card_123" "lost").2 "card_123" "lost"
      = block_card [] { MOCK_STATE with verified := ["user123"] }
          "card_123" "lost" ∧
    (lookup (block_card [] { MOCK_STATE with verified := ["user123"] }
        "card_123" "lost").2.db.cards "card_123").map CardRow.status
      = some "blocked" ∧
    (lookup (block_card [] { MOCK_STATE with verified := ["user123"] }
        "card_123" "lost").2.db.customers
        ({ customer_id := "user123", status := "active" } : CardRow).customer_id).map
        (fun c => custCardStatus c.cards "card_123")
      = some (some "blocked") :=
  C7_block_card_idempotent [] { MOCK_STATE with verified := ["user123"] }
    "card_123" "lost" { customer_id := "user123", status := "active" }
    (Option.get (lookup MOCK_DB.customers "user123") (by decide))
    (by decide) (by decide) (by decide) (by decide) (by decide)

/-- C1: every sensitive tool operation, when its flag is enabled and the
resolved customer is not in the verified set, returns the
`identity_not_verified` error payload (for `block_card`, the string
`"Error: Identity not verified."`) and leaves the whole gateway state — in
particular `MOCK_DB` — unchanged.  The read-only operations
(`get_account_balance`, `get_customer_profile`, `get_recent_transactions`,
`get_customer_cards`, `request_statement`) contain no store writes in the
source and so return no state; the three mutating operations return the
input state untouched. -/
theorem C1_unverified_ops_rejected (flags : ToolFlags) (st : GatewayState)
    (cid as_of : String) (count : Int) (period new_address atm_id date : String)
    (amountCents : Int) (nowEpoch : Nat) (card_id reason : String) (card : CardRow)
    (hver : st.verified.contains cid = false)
    (h1 : is_tool_enabled flags "get_account_balance" = true)
    (h2 : is_tool_enabled flags "get_customer_profile" = true)
    (h3 : is_tool_enabled flags "get_recent_transactions" = true)
    (h4 : is_tool_enabled flags "get_customer_cards" = true)
    (h5 : is_tool_enabled flags "request_statement" = true)
    (h6 : is_tool_enabled flags "update_address" = true)
    (h7 : is_tool_enabled flags "report_cash_not_dispensed" = true)
    (h8 : is_tool_enabled flags "block_card" = true)
    (hcard : lookup st.db.cards card_id = some card)
    (hccid : card.customer_id = cid) :
    get_account_balance flags st cid as_of = some .identity_not_verified ∧
    get_customer_profile flags st cid = .identity_not_verified ∧
    get_recent_transactions flags st cid count = .identity_not_verified ∧
    get_customer_cards flags st cid = .identity_not_verified ∧
    request_statement flags st cid period = .identity_not_verified ∧
    update_address flags st cid new_address = (.identity_not_verified, st) ∧
    report_cash_not_dispensed flags st cid atm_id amountCents date nowEpoch
      = (.identity_not_verified, st) ∧
    block_card flags st card_id reason = ("Error: Identity not verified.", st) := by
  have hnm : ¬ (cid ∈ st.verified) := by
    intro hmem
    simp [hmem] at hver
  refine ⟨?_, ?_, ?_, ?_, ?_, ?_, ?_, ?_⟩
  · simp [get_account_balance, h1, hnm]
  · simp [get_customer_profile, h2, hnm]
  · simp [get_recent_transactions, h3, hnm]
  · simp [get_customer_cards, h4, hnm]
  · simp [request_statement, h5, hnm]
  · simp [update_address, h6, hnm]
  · simp [report_cash_not_dispensed, h7, hnm]
  · simp [block_card, h8, hcard, hccid, hnm]

/-- C1 witness: with all flags at their defaults and the verified set empty,
each sensitive operation rejects `user123` (and `card_123`, owned by
`user123`) with the identity error, leaving the state untouched. -/
theorem C1_unverified_ops_rejected_witness :
    get_account_balance [] MOCK_STATE "user123" "2026-02-01T00:00:00Z"
      = some .identity_not_verified ∧
    get_customer_profile [] MOCK_STATE "user123" = .identity_not_verified ∧
    get_recent_transactions [] MOCK_STATE "user123" 3 = .identity_not_verified ∧
    get_customer_cards [] MOCK_STATE "user123" = .identity_not_verified ∧
    request_statement [] MOCK_STATE "user123" "2025-12" = .identity_not_verified ∧
    update_address [] MOCK_STATE "user123" "456 New St"
      = (.identity_not_verified, MOCK_STATE) ∧
    report_cash_not_dispensed [] MOCK_STATE "user123" "ATM001" 10000
        "2026-01-20" 1700000000 = (.identity_not_verified, MOCK_STATE) ∧
    block_card [] MOCK_STATE "card_123" "lost"
      = ("Error: Identity not verified.", MOCK_STATE) :=
  C1_unverified_ops_rejected [] MOCK_STATE "user123" "2026-02-01T00:00:00Z" 3
    "2025-12" "456 New St" "ATM001" "2026-01-20" 10000 1700000000
    "card_123" "lost" { customer_id := "user123", status := "active" }
    (by decide) (by decide) (by decide) (by decide) (by decide) (by decide)
    (by decide) (by decide) (by decide) (by decide) (by decide)

/-- Tool flags disabling every gateway operation. -/
def allDisabledFlags : ToolFlags :=
  [("verify_identity", some false), ("get_verification_status", some false),
   ("get_account_balance", some false), ("get_customer_profile", some false),
   ("get_recent_transactions", some false), ("get_customer_cards", some false),
   ("block_card", some false), ("request_statement", some false),
   ("update_address", some false), ("report_cash_not_dispensed", some false)]

/-- C2 counterexample: the claim says every gateway operation, *including*
`verify_identity`, returns a `tool_disabled` error when its flag is off.  But
a disabled `verify_identity` returns the bare boolean `false` — the same
value an enabled call returns for a wrong PIN — so its result carries no
`tool_disabled` marker at all and is indistinguishable from an ordinary
failed verification. -/
theorem C2_counterexample :
    (verify_identity [("verify_identity", some false)]
        { MOCK_STATE with verified := ["user123"] } "user123" "1234").1
      = false ∧
    (verify_identity [] MOCK_STATE "user123" "9999").1 = false ∧
    (verify_identity [("verify_identity", some false)]
        { MOCK_STATE with verified := ["user123"] } "user123" "1234").1
      = (verify_identity [] MOCK_STATE "user123" "9999").1 := by
  refine ⟨by decide, by decide, by decide⟩

/-- C2 amended: disabling an operation's flag makes it return its
`tool_disabled` payload immediately with no state change, even for a verified
customer, for every operation *except* `verify_identity`, which instead
returns the bare boolean `false` (still with no side effect). -/
theorem C2_disabled_ops (flags : ToolFlags) (st : GatewayState)
    (cid pin as_of : String) (count : Int)
    (period new_address atm_id date : String) (amountCents : Int)
    (nowEpoch : Nat) (card_id reason : String) :
    (is_tool_enabled flags "get_account_balance" = false →
      get_account_balance flags st cid as_of = some .tool_disabled) ∧
    (is_tool_enabled flags "get_customer_profile" = false →
      get_customer_profile flags st cid = .tool_disabled) ∧
    (is_tool_enabled flags "get_recent_transactions" = false →
      get_recent_transactions flags st cid count = .tool_disabled) ∧
    (is_tool_enabled flags "get_customer_cards" = false →
      get_customer_cards flags st cid = .tool_disabled) ∧
    (is_tool_enabled flags "request_statement" = false →
      request_statement flags st cid period = .tool_disabled) ∧
    (is_tool_enabled flags "update_address" = false →
      update_address flags st cid new_address = (.tool_disabled, st)) ∧
    (is_tool_enabled flags "report_cash_not_dispensed" = false →
      report_cash_not_dispensed flags st cid atm_id amountCents date nowEpoch
        = (.tool_disabled, st)) ∧
    (is_tool_enabled flags "block_card" = false →
      block_card flags st card_id reason = ("Error: Tool disabled.", st)) ∧
    (is_tool_enabled flags "get_verification_status" = false →
      get_verification_status flags st cid = .disabled) ∧
    (is_tool_enabled flags "verify_identity" = false →
      verify_identity flags st cid pin = (false, st)) := by
  refine ⟨?_, ?_, ?_, ?_, ?_, ?_, ?_, ?_, ?_, ?_⟩ <;> intro h
  · simp [get_account_balance, h]
  · simp [get_customer_profile, h]
  · simp [get_recent_transactions, h]
  · simp [get_customer_cards, h]
  · simp [request_statement, h]
  · simp [update_address, h]
  · simp [report_cash_not_dispensed, h]
  · simp [block_card, h]
  · simp [get_verification_status, h]
  · simp [verify_identity, h]

/-- C2 witness: with every flag set to `enabled = false` and `user123`
verified, each operation returns its disabled payload and the state is
untouched; `verify_identity` returns the bare `false`. -/
theorem C2_disabled_ops_witness :
    get_account_balance allDisabledFlags { MOCK_STATE with verified := ["user123"] }
        "user123" "2026-02-01T00:00:00Z" = some .tool_disabled ∧
    block_card allDisabledFlags { MOCK_STATE with verified := ["user123"] }
        "card_123" "lost"
      = ("Error: Tool disabled.", { MOCK_STATE with verified := ["user123"] }) ∧
    get_verification_status allDisabledFlags
        { MOCK_STATE with verified := ["user123"] } "user123" = .disabled ∧
    verify_identity allDisabledFlags { MOCK_STATE with verified := ["user123"] }
        "user123" "1234"
      = (false, { MOCK_STATE with verified := ["user123"] }) := by
  have h := C2_disabled_ops allDisabledFlags
    { MOCK_STATE with verified := ["user123"] } "user123" "1234"
    "2026-02-01T00:00:00Z" 3 "2025-12" "456 New St" "ATM001" "2026-01-20"
    10000 1700000000 "card_123" "lost"
  exact ⟨h.1 (by decide), h.2.2.2.2.2.2.2.1 (by decide),
    h.2.2.2.2.2.2.2.2.1 (by decide), h.2.2.2.2.2.2.2.2.2 (by decide)⟩

/-- C3: evaluation of `verify_identity_raw` at the claim's inputs.  The claim
(and the repository's own tests, which import `_normalize_customer_id` and
`_normalize_pin` from `app.tools` and assert separator-stripped,
case-insensitive matching) requires `verify("John123", "1 2 3 4")` to succeed
when the stored PIN normalizes to `"1234"`.  The shipped code performs an
exact dictionary lookup and strips only surrounding whitespace from the PIN,
so the spaced PIN (length 7) is rejected even for the existing customer
`user123` whose stored PIN is `"1234"`, and neither `"John123"` nor
`"john123"` resolves at all — those normalization helpers do not exist in
`tools.py`. -/
theorem C3_verify_normalization_divergence :
    (lookup MOCK_STATE.db.customers "user123").map Customer.pin = some "1234" ∧
    (verify_identity_raw MOCK_STATE "user123" "1 2 3 4").1 = false ∧
    (verify_identity_raw MOCK_STATE "John123" "1 2 3 4").1 = false ∧
    (verify_identity_raw MOCK_STATE "John123" "1234").1 = false ∧
    (verify_identity_raw MOCK_STATE "john123" "1234").1 = false ∧
    (verify_identity_raw MOCK_STATE "user123" "123").1 = false ∧
    (verify_identity_raw MOCK_STATE "user123" "1234567").1 = false ∧
    (verify_identity_raw MOCK_STATE "user123" "1234").1 = true := by
  refine ⟨by decide, by decide, by decide, by decide, by decide, by decide,
    by decide, by decide⟩

/-- C4: an answer revealing a currency amount with no successful
`get_account_balance` result in the trace is replaced in its entirety by the
verification prompt (which asks for a Customer ID while the session customer
is empty or `guest`, else for the PIN); the same answer with a successful
balance result in the trace (and tripping no contact detector) is returned
unchanged. -/
theorem C4_balance_guardrail (a : String) (msgs : List Msg) (cid : String)
    (htrim : pyStrip a = a) (hbal : revealsBalance a = true) :
    (tool_succeeded msgs "get_account_balance" = false →
        apply_sensitive_guardrail a msgs cid = verification_prompt cid) ∧
    (tool_succeeded msgs "get_account_balance" = true →
        revealsContact a = false →
        apply_sensitive_guardrail a msgs cid = a) ∧
    (pyLower (pyStrip cid) = "" ∨ pyLower (pyStrip cid) = "guest" →
        verification_prompt cid
          = "I can help with that. What’s your Customer ID?") ∧
    (pyLower (pyStrip cid) ≠ "" → pyLower (pyStrip cid) ≠ "guest" →
        verification_prompt cid
          = "I can help with that. Please share your 4–6 digit PIN to verify your identity.") := by
  refine ⟨?_, ?_, ?_, ?_⟩
  · intro h
    exact guardrail_balance_blocked a msgs cid htrim hbal h
  · intro h hc
    exact guardrail_balance_pass a msgs cid htrim hbal h hc
  · intro h
    rcases h with h | h <;> simp [verification_prompt, h]
  · intro hne hg
    simp [verification_prompt, hne, hg]

/-- C4 witness: the answer `"Your checking account has $5000."` is replaced by
the Customer-ID prompt on an empty trace for a `guest` session, and passes
through unchanged once the trace holds a successful `get_account_balance`
result. -/
theorem C4_balance_guardrail_witness :
    apply_sensitive_guardrail "Your checking account has $5000." [] "guest"
      = verification_prompt "guest" ∧
    apply_sensitive_guardrail "Your checking account has $5000."
        [{ mtype := "tool", name := "get_account_balance",
           content := .parsed (.obj ["customer_id", "account_id", "type",
             "available", "currency", "as_of"]) }] "user123"
      = "Your checking account has $5000." := by
  constructor
  · exact (C4_balance_guardrail "Your checking account has $5000." [] "guest"
      (by decide) (by decide)).1 (by decide)
  · exact (C4_balance_guardrail "Your checking account has $5000."
      [{ mtype := "tool", name := "get_account_balance",
         content := .parsed (.obj ["customer_id", "account_id", "type",
           "available", "currency", "as_of"]) }] "user123"
      (by decide) (by decide)).2.1 (by decide) (by decide)

/-- C5 counterexample: the claim says an invalid classifier label falls back to
the current flow when that flow is valid; with current flow
`card_atm_issues` and classifier reply `"yes"` the router is claimed to
return `card_atm_issues`.  The source's `router` node never reads
`state.flow`: any invalid label yields the default `account_servicing`. -/
theorem C5_counterexample :
    router_node { messages := [], customer_id := "guest",
                  flow := some "card_atm_issues" } "yes"
      = "account_servicing" ∧
    router_node { messages := [], customer_id := "guest",
                  flow := some "card_atm_issues" } "yes"
      ≠ "card_atm_issues" := by
  refine ⟨by decide, by decide⟩

/-- C5 amended: when the classifier's stripped reply is not one of the six
valid labels, the router returns the default `account_servicing` regardless
of the session's current flow (no stickiness); a valid label is kept. -/
theorem C5_router_default (state : AgentStateM) (reply : String) :
    (ALLOWED_FLOWS.contains (pyStrip reply) = false →
        router_node state reply = "account_servicing") ∧
    (ALLOWED_FLOWS.contains (pyStrip reply) = true →
        router_node state reply = pyStrip reply) := by
  constructor <;> intro h
  · have hnm : ¬ (pyStrip reply ∈ ALLOWED_FLOWS) := by
      intro hmem
      simp [hmem] at h
    simp [router_node, hnm]
  · have hm : pyStrip reply ∈ ALLOWED_FLOWS := by
      simpa using h
    simp [router_node, hm]

/-- An agent state carrying a current flow, used to probe the router. -/
def stickyStateProbe : AgentStateM :=
  { messages := [], customer_id := "guest", flow := some "digital_app_support" }

/-- C5 witness: an invalid reply defaults to `account_servicing` whatever the
current flow is, and a valid (even padded) reply is kept. -/
theorem C5_router_default_witness :
    router_node stickyStateProbe "ok" = "account_servicing" ∧
    router_node { messages := [], customer_id := "guest", flow := none }
        " card_atm_issues " = "card_atm_issues" := by
  constructor
  · exact (C5_router_default stickyStateProbe "ok").1 (by decide)
  · have h := (C5_router_default { messages := [], customer_id := "guest", flow := none } " card_atm_issues ").2 (by decide)
    rw [h]
    decide

/-- C6 counterexample: the claim says the invoker keeps an ordered candidate
list, continues to the next candidate on a rate-limit-shaped failure, and
returns candidate #2's result when candidate #1 rate-limits.  The source
configures exactly one model; with an oracle under which that model
rate-limits while a second model would answer `"fallback answer"`, the turn
ends in the 429 rate-limited condition — the fallback answer is never
obtained and no other model is consulted. -/
theorem C6_counterexample :
    invoke_turn_llm (fun m => if m = LLM_MODEL then
        LLMOutcome.failure "rate limit reached for this model"
      else LLMOutcome.success "fallback answer")
      = TurnLLMResult.rate_limited "rate limit reached for this model" ∧
    invoke_turn_llm (fun m => if m = LLM_MODEL then
        LLMOutcome.failure "rate limit reached for this model"
      else LLMOutcome.success "fallback answer")
      ≠ TurnLLMResult.answer "fallback answer" := by
  refine ⟨by decide, by decide⟩

/-- C6 amended: every reasoning call of a turn goes to the single fixed model
`llama-3.3-70b-versatile`; the turn's outcome depends only on that model's
outcome (no other candidate is ever consulted and no active-model pointer
exists); a rate-limit-shaped failure surfaces as the 429 retry-later
condition, any other failure is re-raised, and a success is the answer. -/
theorem C6_single_model (o o2 : String → LLMOutcome) (e v : String)
    (hsame : o LLM_MODEL = o2 LLM_MODEL) :
    invoke_turn_llm o = invoke_turn_llm o2 ∧
    (o LLM_MODEL = .success v → invoke_turn_llm o = .answer v) ∧
    (o LLM_MODEL = .failure e → is_rate_limited_error e = true →
        invoke_turn_llm o = .rate_limited e) ∧
    (o LLM_MODEL = .failure e → is_rate_limited_error e = false →
        invoke_turn_llm o = .server_error e) := by
  refine ⟨?_, ?_, ?_, ?_⟩
  · unfold invoke_turn_llm
    rw [hsame]
  · intro h
    unfold invoke_turn_llm
    rw [h]
  · intro h hr
    unfold invoke_turn_llm
    rw [h]
    simp [hr]
  · intro h hr
    unfold invoke_turn_llm
    rw [h]
    simp [hr]

/-- C6 witness: a successful oracle call on the fixed model yields its answer. -/
theorem C6_single_model_witness :
    invoke_turn_llm (fun _ => LLMOutcome.success "Your card is blocked.")
      = TurnLLMResult.answer "Your card is blocked." :=
  (C6_single_model (fun _ => LLMOutcome.success "Your card is blocked.")
    (fun _ => LLMOutcome.success "Your card is blocked.")
    "e" "Your card is blocked." rfl).2.1 rfl

/-- A store holding one already-ended session, used to probe the lifecycle
operations. -/
def endedSessionDB : CallDB :=
  { sessions := [("s1",
      { customer_id := "guest", env_key := "dev", created_at := 0,
        updated_at := 0, ended := true, verified_identity := false,
        verification_attempts := 0 })],
    turns := [] }

/-- External turn inputs used to probe `call_turn`. -/
def probeTurnEnv : TurnEnv :=
  { now := 7, audio_len := 4096, transcript := "hello",
    agent_failure := none, bot_response := "Hi there!",
    attempts_delta := 0, verified_now := false,
    verified_customer_id := none }

/-- C8 counterexample: the claim says no code path ever appends a turn to a
session whose `ended` flag is true.  But `end_call` sets `ended` and *then*
appends the closing turn — and it never checks `ended`, so calling it on an
already-ended session appends yet another closing turn to that ended
session. -/
theorem C8_counterexample :
    (lookup endedSessionDB.sessions "s1").map SessionRow.ended = some true ∧
    end_call endedSessionDB [] "s1" 7
      = .ok ({ sessions := [("s1",
                   { customer_id := "guest", env_key := "dev", created_at := 0,
                     updated_at := 7, ended := true, verified_identity := false,
                     verification_attempts := 0 })],
               turns := [{ session_id := "s1", ts := 7, user_transcript := none,
                           agent_response := CLOSING_MESSAGE }] }, [],
          CLOSING_MESSAGE) := by
  refine ⟨by decide, by rfl⟩

/-- C8 amended: a `/call/turn` request on a missing or ended session fails
with the not-found error before any turn is appended or any session field is
mutated (the guard is the first step and an error return carries no store
update); `end_call` on a missing session also fails without writes.  However
`end_call` on any existing session — ended or not — first sets `ended := true`
and then appends the closing turn, so the closing-turn append is a code path
that appends a turn to a session whose `ended` flag is already true. -/
theorem C8_ended_sessions (db : CallDB) (verified : List String)
    (session_id : String) (env : TurnEnv) (now : Nat) :
    (lookup db.sessions session_id = none →
        call_turn db session_id env = .error "Session not found or ended" ∧
        end_call db verified session_id now = .error "Session not found") ∧
    (∀ s : SessionRow, lookup db.sessions session_id = some s → s.ended = true →
        call_turn db session_id env = .error "Session not found or ended") ∧
    (∀ s : SessionRow, lookup db.sessions session_id = some s →
        ∃ db2 : CallDB,
          end_call db verified session_id now
            = .ok (db2, reset_verification verified s.customer_id,
                CLOSING_MESSAGE) ∧
          db2.turns = db.turns ++ [{ session_id := session_id, ts := now, user_transcript := none, agent_response := CLOSING_MESSAGE }] ∧
          (lookup db2.sessions session_id).map SessionRow.ended = some true) := by
  refine ⟨?_, ?_, ?_⟩
  · intro h
    exact ⟨by simp [call_turn, h], by simp [end_call, h]⟩
  · intro s hs hend
    simp [call_turn, hs, hend]
  · intro s hs
    refine ⟨append_turn (touch_session db session_id now (some true))
      session_id now none CLOSING_MESSAGE, ?_, ?_, ?_⟩
    · simp [end_call, hs]
    · simp [append_turn, touch_session]
    · simp only [append_turn, touch_session]
      rw [lookup_updateAssoc_self]
      rw [lookup_updateAssoc_self]
      rw [hs]
      simp

/-- C8 witness: a turn on the already-ended session `s1` is rejected with the
not-found error and writes nothing. -/
theorem C8_ended_sessions_witness :
    call_turn endedSessionDB "s1" probeTurnEnv
      = .error "Session not found or ended" :=
  (C8_ended_sessions endedSessionDB [] "s1" probeTurnEnv 7).2.1
    { customer_id := "guest", env_key := "dev", created_at := 0,
      updated_at := 0, ended := true, verified_identity := false,
      verification_attempts := 0 }
    (by decide) (by decide)

/-- A non-tool message used to pad guardrail traces. -/
def aiMsgProbe : Msg := { mtype := "ai", name := "", content := .missing }

/-- A failed `get_account_balance` tool message (its payload carries `error`). -/
def balanceFailMsg : Msg :=
  { mtype := "tool", name := "get_account_balance",
    content := .parsed (.obj ["error"]) }

/-- A successful `get_account_balance` tool message. -/
def balanceOkMsg : Msg :=
  { mtype := "tool", name := "get_account_balance",
    content := .parsed (.obj ["customer_id", "account_id", "type", "available",
      "currency", "as_of"]) }

/-- C9: the guardrail's success check is decided solely by the first tool
message in the trace whose name matches; when a failed `get_account_balance`
result precedes a successful one in the same turn, the check still reports
failure and the balance-revealing answer is replaced, even though a
successful corroborating result exists later in the trace. -/
theorem C9_first_tool_message_decides (pre mid post : List Msg) (m1 m2 : Msg)
    (a cid : String)
    (hpre : ∀ m ∈ pre, ¬ (m.mtype = "tool" ∧ m.name = "get_account_balance"))
    (hm1t : m1.mtype = "tool") (hm1n : m1.name = "get_account_balance")
    (hm1 : contentSucceeded m1.content = false)
    (hm2t : m2.mtype = "tool") (hm2n : m2.name = "get_account_balance")
    (hm2 : contentSucceeded m2.content = true)
    (htrim : pyStrip a = a) (hbal : revealsBalance a = true) :
    tool_succeeded (pre ++ m1 :: (mid ++ m2 :: post)) "get_account_balance"
      = false ∧
    (∃ m ∈ pre ++ m1 :: (mid ++ m2 :: post),
      m.mtype = "tool" ∧ m.name = "get_account_balance" ∧
        contentSucceeded m.content = true) ∧
    apply_sensitive_guardrail a (pre ++ m1 :: (mid ++ m2 :: post)) cid
      = verification_prompt cid := by
  have hts : tool_succeeded (pre ++ m1 :: (mid ++ m2 :: post))
      "get_account_balance" = false := by
    rw [tool_succeeded_append_of_none pre _ _ hpre]
    simp [tool_succeeded, hm1t, hm1n, hm1]
  refine ⟨hts, ⟨m2, by simp, hm2t, hm2n, hm2⟩,
    guardrail_balance_blocked a _ cid htrim hbal hts⟩

/-- C9 witness: with a failed balance result before a successful one, the
balance answer is still replaced by the verification prompt. -/
theorem C9_first_tool_message_decides_witness :
    tool_succeeded ([aiMsgProbe] ++ balanceFailMsg :: ([] ++ balanceOkMsg :: []))
        "get_account_balance" = false ∧
    apply_sensitive_guardrail "Your checking account has $5000."
        ([aiMsgProbe] ++ balanceFailMsg :: ([] ++ balanceOkMsg :: [])) "guest"
      = verification_prompt "guest" := by
  have h := C9_first_tool_message_decides [aiMsgProbe] [] [] balanceFailMsg
    balanceOkMsg "Your checking account has $5000." "guest"
    (by decide) (by decide) (by decide) (by decide) (by decide) (by decide)
    (by decide) (by decide) (by decide)
  exact ⟨h.1, h.2.2⟩

/-- Success of `verify_identity_raw` is the only way the raw verifier grows
the verified set, and it adds exactly the queried id. -/
theorem verify_raw_verified_eq (st : GatewayState) (cid pin : String) :
    (verify_identity_raw st cid pin).2.verified
      = (if (verify_identity_raw st cid pin).1 = true
         then setInsert st.verified cid else st.verified) := by
  unfold verify_identity_raw
  cases hc : lookup st.db.customers cid with
  | none => simp
  | some c =>
    dsimp only
    split
    · simp
    · split
      · simp
      · simp

/-- A successful `verify_identity_raw` call implies the customer exists and
the stripped PIN equals the stored PIN exactly. -/
theorem verify_raw_success_pin (st : GatewayState) (cid pin : String)
    (h : (verify_identity_raw st cid pin).1 = true) :
    ∃ c, lookup st.db.customers cid = some c ∧ c.pin = pyStrip pin := by
  unfold verify_identity_raw at h
  cases hc : lookup st.db.customers cid with
  | none =>
    rw [hc] at h
    simp at h
  | some c =>
    rw [hc] at h
    dsimp only at h
    refine ⟨c, rfl, ?_⟩
    split at h
    · simp at h
    · split at h
      · simp at h
      · rename_i hne
        exact of_not_not hne

/-- C10: the verified set is touched only by the verification engine.  The raw
verifier adds exactly the queried customer and only on success (which
requires an existing customer whose stored PIN equals the stripped input
PIN); the flag-gated wrapper behaves identically when enabled and is inert
when disabled; the three mutating gateway operations never change the set;
the remaining gateway operations (`get_account_balance`,
`get_customer_profile`, `get_recent_transactions`, `get_customer_cards`,
`request_statement`, `get_verification_status`) contain no writes at all in
the source and are embedded as pure functions; hydration and reset are
`set_verification_state` and `reset_verification` themselves. -/
theorem C10_verified_set_invariant (flags : ToolFlags) (st : GatewayState)
    (cid pin new_address atm_id date reason card_id : String)
    (amountCents : Int) (nowEpoch : Nat) :
    ((verify_identity_raw st cid pin).2.verified
        = (if (verify_identity_raw st cid pin).1 = true
           then setInsert st.verified cid else st.verified)) ∧
    ((verify_identity_raw st cid pin).1 = true →
        ∃ c, lookup st.db.customers cid = some c ∧ c.pin = pyStrip pin) ∧
    ((verify_identity flags st cid pin).2.verified
        = (if (verify_identity flags st cid pin).1 = true
           then setInsert st.verified cid else st.verified)) ∧
    ((update_address flags st cid new_address).2.verified = st.verified) ∧
    ((report_cash_not_dispensed flags st cid atm_id amountCents date
        nowEpoch).2.verified = st.verified) ∧
    ((block_card flags st card_id reason).2.verified = st.verified) := by
  refine ⟨verify_raw_verified_eq st cid pin,
    fun h => verify_raw_success_pin st cid pin h, ?_, ?_, ?_, ?_⟩
  · unfold verify_identity
    split
    · simp
    · exact verify_raw_verified_eq st cid pin
  · unfold update_address
    split
    · rfl
    · split
      · rfl
      · split <;> rfl
  · unfold report_cash_not_dispensed
    split
    · rfl
    · split
      · rfl
      · split <;> rfl
  · unfold block_card
    split
    · rfl
    · split
      · rfl
      · split <;> rfl

/-- C10 witness: a correct verification of `user123` adds exactly that id to
the empty verified set, the success certifies the stored PIN, and a
successful `block_card` leaves the verified set untouched. -/
theorem C10_verified_set_invariant_witness :
    (verify_identity_raw MOCK_STATE "user123" "1234").2.verified
      = setInsert [] "user123" ∧
    (∃ c, lookup MOCK_STATE.db.customers "user123" = some c ∧
        c.pin = pyStrip "1234") ∧
    (block_card [] { MOCK_STATE with verified := ["user123"] }
        "card_123" "stolen").2.verified = ["user123"] := by
  have h := C10_verified_set_invariant [] MOCK_STATE "user123" "1234"
    "456 New St" "ATM001" "2026-01-20" "stolen" "card_123" 10000 1700000000
  have h2 := C10_verified_set_invariant []
    { MOCK_STATE with verified := ["user123"] } "user123" "1234"
    "456 New St" "ATM001" "2026-01-20" "stolen" "card_123" 10000 1700000000
  refine ⟨?_, h.2.1 (by decide), h2.2.2.2.2.2⟩
  rw [h.1]
  decide
